import Mathlib

/-!
Shallow embedding of the Stripe–Enhance subscription integration:
error classification and retry executor (src/lib/subscription-manager.ts,
error-handler part), the database layer (src/lib/database.ts), event
extraction (src/lib/stripe.ts), the webhook pipeline and its handlers
(webhook route), and the subscription manager operations.

External services (Stripe, Enhance) are modelled as an environment of
pure read functions plus an explicit trace of emitted calls (`Effect`);
the relational store is an explicit `DBState` value threaded through the
operations.  Machine details that the claims do not touch (timestamps,
JSON payload snapshots, logging output) are omitted.
-/

namespace StripeEnhance

/-- ASCII lower-casing of one character (the classifier's keywords and
the error messages in question are ASCII, so this models JS
`toLowerCase` faithfully on the relevant inputs). -/
def lowerChar (c : Char) : Char :=
  if 65 ≤ c.toNat ∧ c.toNat ≤ 90 then Char.ofNat (c.toNat + 32) else c

/-- JS `String.prototype.toLowerCase` (ASCII fragment). -/
def strLower (s : String) : String := ⟨s.data.map lowerChar⟩

/-- Does `pat` occur at the head of the character list? -/
def subAt : List Char → List Char → Bool
  | [], _ => true
  | _ :: _, [] => false
  | a :: as, b :: bs => a == b && subAt as bs

/-- Does `pat` occur anywhere in the character list? -/
def hasSubL (pat : List Char) : List Char → Bool
  | [] => subAt pat []
  | b :: bs => subAt pat (b :: bs) || hasSubL pat bs

/-- JS `String.prototype.includes`: substring containment test. -/
def containsSub (s pat : String) : Bool := hasSubL pat.data s.data

/-- The `ErrorCategory` enum from the error handler. -/
inductive ErrorCategory where
  | validation
  | authentication
  | externalApi
  | database
  | businessLogic
  | system
deriving DecidableEq, Repr

/-- The string value of each `ErrorCategory` enum member. -/
def ErrorCategory.str : ErrorCategory → String
  | .validation => "validation"
  | .authentication => "authentication"
  | .externalApi => "external_api"
  | .database => "database"
  | .businessLogic => "business_logic"
  | .system => "system"

/-- The `ErrorSeverity` enum from the error handler. -/
inductive ErrorSeverity where
  | low
  | medium
  | high
  | critical
deriving DecidableEq, Repr

/-- The `AppError`: a pre-classified error carrying category, severity and
retryability (context object and timestamp omitted). -/
structure AppError where
  message : String
  category : ErrorCategory
  severity : ErrorSeverity
  retryable : Bool
deriving DecidableEq, Repr

/-- A thrown JS error: either a plain `Error` (only its message matters
to the classifier) or an `AppError` instance. -/
inductive JsError where
  | plain (message : String)
  | app (e : AppError)
deriving DecidableEq, Repr

/-- Model of `ErrorHandler.categorizeError`: an `AppError` passes through
unchanged; otherwise keyword matching over the lower-cased message, in
source order (external-api keywords first, then database, then
authentication, then validation, else system). -/
def categorizeError : JsError → AppError
  | .app e => e
  | .plain msg =>
    let m := strLower msg
    if containsSub m "fetch" || containsSub m "network" || containsSub m "timeout" then
      ⟨msg, .externalApi, .high, true⟩
    else if containsSub m "database" || containsSub m "sql" || containsSub m "connection" then
      ⟨msg, .database, .high, true⟩
    else if containsSub m "unauthorized" || containsSub m "forbidden" || containsSub m "token" then
      ⟨msg, .authentication, .medium, false⟩
    else if containsSub m "validation" || containsSub m "invalid" || containsSub m "required" then
      ⟨msg, .validation, .low, false⟩
    else
      ⟨msg, .system, .medium, false⟩

/-! ## Retry executor (`ErrorHandler.withRetry`)

The operation is modelled as a function from the attempt number to an
outcome; the jitter `Math.random() * 1000` is modelled as a function
`jit` from the attempt number to a rational in `[0, 1000)`.  The result
records the final outcome, the number of invocations of the operation,
and the list of delays inserted between consecutive attempts. -/

/-- Outcome of one invocation of the wrapped operation. -/
inductive OpResult (α : Type) where
  | ok (v : α)
  | fail (e : JsError)

/-- Observable result of `withRetry`: final outcome, number of
invocations of the operation, delays slept between attempts. -/
structure RetryTrace (α : Type) where
  result : Except AppError α
  calls : Nat
  delays : List ℚ

/-- The `for (attempt = 1; attempt <= maxRetries; attempt++)` loop of
`withRetry`.  On failure the error is classified; a non-retryable error
is rethrown at once; at the last attempt the loop breaks and the last
error is re-classified and thrown; otherwise the loop sleeps
`baseDelay * 2^(attempt-1) + jitter` and retries.  (The source breaks
when `attempt === maxRetries`; since the loop is entered at `attempt = 1`
and only increments while `attempt < maxRetries`, the guard
`maxRetries ≤ attempt` used here coincides with it on every reachable
state.) -/
def retryGo {α : Type} (op : Nat → OpResult α) (jit : Nat → ℚ) (baseDelay : ℚ)
    (maxRetries attempt : Nat) : RetryTrace α :=
  match op attempt with
  | .ok v => ⟨.ok v, 1, []⟩
  | .fail e =>
    let ae := categorizeError e
    if ae.retryable = false then ⟨.error ae, 1, []⟩
    else if h : maxRetries ≤ attempt then ⟨.error (categorizeError e), 1, []⟩
    else
      let d := baseDelay * 2 ^ (attempt - 1) + jit attempt
      let r := retryGo op jit baseDelay maxRetries (attempt + 1)
      ⟨r.result, r.calls + 1, d :: r.delays⟩
termination_by maxRetries - attempt
decreasing_by omega

/-- Model of `ErrorHandler.withRetry`.  With `maxRetries = 0` the loop body never
runs and the source dereferences the never-assigned `lastError`
(a runtime `TypeError`), modelled as `none`. -/
def withRetry {α : Type} (op : Nat → OpResult α) (maxRetries : Nat)
    (baseDelay : ℚ) (jit : Nat → ℚ) : Option (RetryTrace α) :=
  if maxRetries = 0 then none
  else some (retryGo op jit baseDelay maxRetries 1)

/-! ## Data model (src/lib/database.ts) -/

/-- The internal subscription status union type
`"active" | "suspended" | "canceled"`. -/
inductive InternalStatus where
  | active
  | suspended
  | canceled
deriving DecidableEq, Repr

/-- The string value of an internal status (used where the source
compares it against status strings coming from the Enhance API). -/
def InternalStatus.str : InternalStatus → String
  | .active => "active"
  | .suspended => "suspended"
  | .canceled => "canceled"

/-- The `Customer` row (timestamps omitted; `deleted` models
`deleted_at IS NOT NULL`). -/
structure Customer where
  id : Nat
  enhance_customer_id : String
  stripe_customer_id : Option String
  email : String
  name : String
  deleted : Bool
deriving DecidableEq, Repr

/-- The `Subscription` row (timestamps omitted). -/
structure Subscription where
  id : Nat
  customer_id : Nat
  enhance_subscription_id : String
  stripe_subscription_id : Option String
  enhance_plan_id : String
  status : InternalStatus
deriving DecidableEq, Repr

/-- The `PlanMapping` row. -/
structure PlanMapping where
  billing_provider : String
  billing_plan_id : String
  enhance_plan_id : String
deriving DecidableEq, Repr

/-- The `WebhookLog` row — an idempotency-ledger entry (payload snapshot
and created timestamp omitted). -/
structure WebhookRow where
  idempotency_key : String
  source : String
  event_type : String
  status : String
  error_message : Option String
deriving DecidableEq, Repr

/-- The relational store. -/
structure DBState where
  customers : List Customer
  subscriptions : List Subscription
  plan_mappings : List PlanMapping
  webhook_logs : List WebhookRow
deriving DecidableEq, Repr

/-! ### DatabaseService operations as pure state functions -/

/-- Model of `DatabaseService.webhookExists`: `SELECT 1 WHERE idempotency_key = k`. -/
def webhookExists (key : String) (db : DBState) : Bool :=
  db.webhook_logs.any (fun w => w.idempotency_key == key)

/-- Model of `DatabaseService.logWebhook`: insert a ledger row (the pipeline
always passes status `"received"`). -/
def logWebhook (key source etype : String) (db : DBState) : DBState :=
  { db with webhook_logs := db.webhook_logs ++ [⟨key, source, etype, "received", none⟩] }

/-- Model of `DatabaseService.updateWebhookStatus`: unconditionally set status
and error message on every row with the given key (passing no message
stores NULL). -/
def updateWebhookStatus (key status : String) (errMsg : Option String) (db : DBState) : DBState :=
  { db with webhook_logs :=
      db.webhook_logs.map fun w =>
        if w.idempotency_key == key then { w with status := status, error_message := errMsg } else w }

/-- Model of `DatabaseService.findSubscriptionByStripeId`. -/
def findSubscriptionByStripeId (sid : String) (db : DBState) : Option Subscription :=
  (db.subscriptions.filter (fun s => s.stripe_subscription_id == some sid)).head?

/-- Model of `DatabaseService.updateSubscriptionStatus`. -/
def updateSubscriptionStatus (id : Nat) (st : InternalStatus) (db : DBState) : DBState :=
  { db with subscriptions :=
      db.subscriptions.map fun s => if s.id == id then { s with status := st } else s }

/-- Model of `DatabaseService.updateSubscriptionPlan`. -/
def updateSubscriptionPlan (id : Nat) (planId : String) (db : DBState) : DBState :=
  { db with subscriptions :=
      db.subscriptions.map fun s => if s.id == id then { s with enhance_plan_id := planId } else s }

/-- Model of `DatabaseService.findPlanMapping`. -/
def findPlanMapping (provider planId : String) (db : DBState) : Option PlanMapping :=
  (db.plan_mappings.filter
    (fun m => m.billing_provider == provider && m.billing_plan_id == planId)).head?

/-- Model of `DatabaseService.findCustomerByStripeId` (`deleted_at IS NULL`). -/
def findCustomerByStripeId (cid : String) (db : DBState) : Option Customer :=
  (db.customers.filter
    (fun c => c.stripe_customer_id == some cid && c.deleted == false)).head?

/-- Model of `DatabaseService.createCustomer`: insert and return the new row
(fresh serial id). -/
def createCustomer (enhId : String) (stripeId : Option String) (email name : String)
    (db : DBState) : Customer × DBState :=
  let c : Customer := ⟨db.customers.length + 1, enhId, stripeId, email, name, false⟩
  (c, { db with customers := db.customers ++ [c] })

/-- Model of `DatabaseService.createSubscription`: insert and return the new row
(fresh serial id). -/
def createSubscription (customerId : Nat) (enhSubId : String) (stripeSubId : Option String)
    (planId : String) (st : InternalStatus) (db : DBState) : Subscription × DBState :=
  let s : Subscription := ⟨db.subscriptions.length + 1, customerId, enhSubId, stripeSubId, planId, st⟩
  (s, { db with subscriptions := db.subscriptions ++ [s] })

/-! ## Stripe event extraction (src/lib/stripe.ts)

Optional string fields of the raw event object are modelled as `String`
with `""` standing for JS `undefined`/missing — this matches JS string
truthiness, which the extraction code relies on (`a || b`). -/

/-- The embedded `customer_details` object of a checkout session. -/
structure CustDetails where
  email : String
  name : String
deriving DecidableEq, Repr

/-- The `event.data.object` fields read by the extractors. -/
structure EventObject where
  id : String := ""
  customer : String := ""
  subscription : String := ""
  status : String := ""
  items_price : String := ""
  line_items_price : String := ""
  customer_details : Option CustDetails := none
  customer_email : String := ""
deriving DecidableEq, Repr

/-- A verified Stripe webhook event. -/
structure StripeEvent where
  id : String
  type : String
  obj : EventObject
deriving DecidableEq, Repr

/-- JS `a || b` on strings (`""` is falsy). -/
def orS (a b : String) : String := if a = "" then b else a

/-- The customer projection of `StripeService.extractCustomerData`. -/
structure CustomerData where
  stripeCustomerId : String
  email : String
  name : String
deriving DecidableEq, Repr

/-- Model of `StripeService.extractCustomerData`.  For checkout completion,
`customer = object.customer_details || object.customer`; reading
`.email`/`.name` off the customer-id string yields `undefined`, so the
fallbacks apply.  Subscription lifecycle events carry no email/name. -/
def extractCustomerData (e : StripeEvent) : Option CustomerData :=
  match e.type with
  | "checkout.session.completed" =>
    match e.obj.customer_details with
    | some cd => some ⟨e.obj.customer, orS cd.email e.obj.customer_email, orS cd.name cd.name⟩
    | none => some ⟨e.obj.customer, e.obj.customer_email, ""⟩
  | "customer.subscription.created" => some ⟨e.obj.customer, "", ""⟩
  | "customer.subscription.updated" => some ⟨e.obj.customer, "", ""⟩
  | "customer.subscription.deleted" => some ⟨e.obj.customer, "", ""⟩
  | _ => none

/-- The subscription projection of `StripeService.extractSubscriptionData`. -/
structure SubscriptionData where
  stripeSubscriptionId : String
  stripeCustomerId : String
  stripePriceId : String
  status : String
deriving DecidableEq, Repr

/-- Model of `StripeService.extractSubscriptionData`.  Note: for
`checkout.session.completed` the status field is the literal `"active"`,
not the payload's status; for subscription lifecycle events it is
`event.data.object.status`. -/
def extractSubscriptionData (e : StripeEvent) : Option SubscriptionData :=
  match e.type with
  | "checkout.session.completed" =>
    some ⟨e.obj.subscription, e.obj.customer, e.obj.line_items_price, "active"⟩
  | "customer.subscription.created" =>
    some ⟨e.obj.id, e.obj.customer, e.obj.items_price, e.obj.status⟩
  | "customer.subscription.updated" =>
    some ⟨e.obj.id, e.obj.customer, e.obj.items_price, e.obj.status⟩
  | "customer.subscription.deleted" =>
    some ⟨e.obj.id, e.obj.customer, e.obj.items_price, e.obj.status⟩
  | _ => none

/-! ## External systems

The Stripe and Enhance APIs are modelled as an environment of pure read
functions (what a GET would return during this run) plus a trace of the
calls the code issues (`Effect`).  Ledger writes are also traced, so the
order of durable-store transitions is observable. -/

/-- Read-only view of the external systems during one run. -/
structure Env where
  /-- The `StripeService.getSubscription(id).status`. -/
  stripeStatus : String → String
  /-- The `EnhanceService.getSubscription(id).status`. -/
  enhanceStatus : String → String
  /-- The `StripeService.getCustomer(id).email`. -/
  stripeCustomerEmail : String → String
  /-- The `StripeService.getCustomer(id).name` (`""` for null). -/
  stripeCustomerName : String → String
  /-- Id assigned by `EnhanceService.createCustomer`. -/
  newEnhanceCustomerId : String
  /-- Id assigned by `EnhanceService.createSubscription`. -/
  newEnhanceSubId : String

/-- A call the code issues against an external system or the ledger. -/
inductive Effect where
  | stripeGetSubscription (id : String)
  | stripeGetCustomer (id : String)
  | enhGetSubscription (id : String)
  | enhCreateCustomer (email name org : String)
  | enhCreateSubscription (customerId planId : String)
  | enhReactivate (id : String)
  | enhSuspend (id : String)
  | enhCancel (id : String)
  | enhChangePlan (id planId : String)
  | dbInsertWebhook (key status : String)
  | dbUpdateWebhook (key status : String) (errMsg : Option String)
deriving DecidableEq, Repr

/-- Is the effect a provisioning (Enhance) action, i.e. a call that
mutates the provisioning system? -/
def Effect.isProvisioningAction : Effect → Bool
  | .enhCreateCustomer _ _ _ => true
  | .enhCreateSubscription _ _ => true
  | .enhReactivate _ => true
  | .enhSuspend _ => true
  | .enhCancel _ => true
  | .enhChangePlan _ _ => true
  | _ => false

/-- Is the effect a write to the webhook ledger? -/
def Effect.isLedgerWrite : Effect → Bool
  | .dbInsertWebhook _ _ => true
  | .dbUpdateWebhook _ _ _ => true
  | _ => false

/-- Result of one operation run: final store, trace of external calls
in order, and the thrown error if the operation failed.  On failure,
`db` and `effs` record the writes and calls made before the throw. -/
structure HRes where
  db : DBState
  effs : List Effect
  err : Option JsError
deriving DecidableEq, Repr

/-! ## Reconciliation operations -/

/-- The status-mapping table of spec section 4.4, written from the
spec's words for comparison with the code paths:
active → active; past_due, unpaid → suspended; canceled,
incomplete_expired → canceled; anything else → no change. -/
def specTargetStatus (s : String) : Option InternalStatus :=
  if s = "active" then some .active
  else if s = "past_due" ∨ s = "unpaid" then some .suspended
  else if s = "canceled" ∨ s = "incomplete_expired" then some .canceled
  else none

/-- Lines 73–89 of `SubscriptionManager.syncSingleSubscription`: invoke
the provisioning action for the target when the Enhance status differs
from it, and write the internal status when the stored status differs. -/
def syncConverge (dbSub : Subscription) (enhStatus : String) (t : InternalStatus)
    (db : DBState) : DBState × List Effect :=
  let effs : List Effect :=
    if enhStatus ≠ t.str then
      [match t with
       | .active => .enhReactivate dbSub.enhance_subscription_id
       | .suspended => .enhSuspend dbSub.enhance_subscription_id
       | .canceled => .enhCancel dbSub.enhance_subscription_id]
    else []
  let db' := if dbSub.status ≠ t then updateSubscriptionStatus dbSub.id t db else db
  (db', effs)

/-- Model of `SubscriptionManager.syncSingleSubscription` (the bulk-sync path's
per-item reconciliation).  Reads the Stripe and Enhance subscriptions,
maps the Stripe status through the target switch, and converges; an
unknown status logs and returns. -/
def syncSingleSubscription (env : Env) (sid : String) (db : DBState) : HRes :=
  match findSubscriptionByStripeId sid db with
  | none => ⟨db, [], some (.plain ("Subscription not found in database: " ++ sid))⟩
  | some dbSub =>
    let reads : List Effect :=
      [.stripeGetSubscription sid, .enhGetSubscription dbSub.enhance_subscription_id]
    let enhStatus := env.enhanceStatus dbSub.enhance_subscription_id
    match env.stripeStatus sid with
    | "active" =>
      let (db', effs) := syncConverge dbSub enhStatus .active db
      ⟨db', reads ++ effs, none⟩
    | "past_due" =>
      let (db', effs) := syncConverge dbSub enhStatus .suspended db
      ⟨db', reads ++ effs, none⟩
    | "unpaid" =>
      let (db', effs) := syncConverge dbSub enhStatus .suspended db
      ⟨db', reads ++ effs, none⟩
    | "canceled" =>
      let (db', effs) := syncConverge dbSub enhStatus .canceled db
      ⟨db', reads ++ effs, none⟩
    | "incomplete_expired" =>
      let (db', effs) := syncConverge dbSub enhStatus .canceled db
      ⟨db', reads ++ effs, none⟩
    | _ => ⟨db, reads, none⟩

/-- Model of `SubscriptionManager.changePlan`: resolve the new mapping, push the
plan to Enhance, then update the internal record.  Both failure paths
throw plain `Error`s. -/
def changePlan (sid newPriceId : String) (db : DBState) : HRes :=
  match findSubscriptionByStripeId sid db with
  | none => ⟨db, [], some (.plain ("Subscription not found: " ++ sid))⟩
  | some sub =>
    match findPlanMapping "stripe" newPriceId db with
    | none => ⟨db, [], some (.plain ("No plan mapping found for Stripe price: " ++ newPriceId))⟩
    | some pm =>
      ⟨updateSubscriptionPlan sub.id pm.enhance_plan_id db,
       [.enhChangePlan sub.enhance_subscription_id pm.enhance_plan_id], none⟩

/-! ## Webhook handlers (webhook route) -/

/-- Body of `handleSubscriptionUpdated` (inside its retry wrapper).
Each recognised status invokes its Enhance call unconditionally and then
the internal status is written; an unrecognised status logs and returns;
an unknown subscription logs and returns. -/
def handleSubscriptionUpdatedOp (event : StripeEvent) (db : DBState) : HRes :=
  match extractSubscriptionData event with
  | none =>
    ⟨db, [], some (.app ⟨"Failed to extract subscription data from update event",
                         .businessLogic, .high, false⟩)⟩
  | some sd =>
    match findSubscriptionByStripeId sd.stripeSubscriptionId db with
    | none => ⟨db, [], none⟩
    | some sub =>
      match sd.status with
      | "active" =>
        ⟨updateSubscriptionStatus sub.id .active db,
         [.enhReactivate sub.enhance_subscription_id], none⟩
      | "past_due" =>
        ⟨updateSubscriptionStatus sub.id .suspended db,
         [.enhSuspend sub.enhance_subscription_id], none⟩
      | "unpaid" =>
        ⟨updateSubscriptionStatus sub.id .suspended db,
         [.enhSuspend sub.enhance_subscription_id], none⟩
      | "canceled" =>
        ⟨updateSubscriptionStatus sub.id .canceled db,
         [.enhSuspend sub.enhance_subscription_id], none⟩
      | "incomplete_expired" =>
        ⟨updateSubscriptionStatus sub.id .canceled db,
         [.enhSuspend sub.enhance_subscription_id], none⟩
      | _ => ⟨db, [], none⟩

/-- Body of `handleSubscriptionDeleted` (inside its retry wrapper):
unconditional Enhance suspend, then internal status set to canceled;
unknown subscription logs and returns. -/
def handleSubscriptionDeletedOp (event : StripeEvent) (db : DBState) : HRes :=
  match extractSubscriptionData event with
  | none =>
    ⟨db, [], some (.app ⟨"Failed to extract subscription data from deletion event",
                         .businessLogic, .high, false⟩)⟩
  | some sd =>
    match findSubscriptionByStripeId sd.stripeSubscriptionId db with
    | none => ⟨db, [], none⟩
    | some sub =>
      ⟨updateSubscriptionStatus sub.id .canceled db,
       [.enhSuspend sub.enhance_subscription_id], none⟩

/-- JS `email.split("@")[0]`. -/
def localPart (s : String) : String :=
  match s.splitOn "@" with
  | [] => ""
  | x :: _ => x

/-- The find-or-create-customer stage of `handleCheckoutCompleted`:
when no internal customer matches, resolve a missing email via a Stripe
lookup, create the Enhance customer (display/organization name falls
back to the email's local part), then insert the internal row.  Returns
(customer row, store, trace). -/
def ensureCustomer (env : Env) (cd : CustomerData) (db : DBState) :
    Customer × DBState × List Effect :=
  match findCustomerByStripeId cd.stripeCustomerId db with
  | some c => (c, db, [])
  | none =>
    let fetched :=
      if cd.email = "" then
        (env.stripeCustomerEmail cd.stripeCustomerId,
         env.stripeCustomerName cd.stripeCustomerId,
         [Effect.stripeGetCustomer cd.stripeCustomerId])
      else (cd.email, cd.name, ([] : List Effect))
    let email := fetched.1
    let name := fetched.2.1
    let disp := orS name (localPart email)
    let cdb := createCustomer env.newEnhanceCustomerId (some cd.stripeCustomerId) email name db
    (cdb.1, cdb.2, fetched.2.2 ++ [Effect.enhCreateCustomer email disp disp])

/-- Body of `handleCheckoutCompleted` (inside its retry wrapper):
find-or-create the customer, resolve the plan mapping, create the
Enhance subscription, then the internal row. -/
def handleCheckoutCompletedOp (env : Env) (event : StripeEvent) (db : DBState) : HRes :=
  match extractCustomerData event, extractSubscriptionData event with
  | some cd, some sd =>
    let ec := ensureCustomer env cd db
    match findPlanMapping "stripe" sd.stripePriceId ec.2.1 with
    | none =>
      ⟨ec.2.1, ec.2.2, some (.app ⟨"No plan mapping found for Stripe price: " ++ sd.stripePriceId,
                                   .businessLogic, .high, false⟩)⟩
    | some pm =>
      ⟨(createSubscription ec.1.id env.newEnhanceSubId (some sd.stripeSubscriptionId)
          pm.enhance_plan_id .active ec.2.1).2,
       ec.2.2 ++ [Effect.enhCreateSubscription ec.1.enhance_customer_id pm.enhance_plan_id],
       none⟩
  | _, _ =>
    ⟨db, [], some (.app ⟨"Failed to extract customer or subscription data from checkout event",
                         .businessLogic, .high, false⟩)⟩

/-! ## Retry wrapper over a state-transforming operation

The handlers are wrapped in `ErrorHandler.withRetry(op, 3, ...)`.  Here
the operation is deterministic in the store it is given, so the loop is
modelled as a recursion that threads the store and concatenates the
traces of the attempts. -/

/-- The retry loop around a store-transforming operation (same control
flow as `retryGo`; delays are not observable here and are dropped). -/
def retryDetGo (op : DBState → HRes) (maxRetries attempt : Nat) (db : DBState) : HRes :=
  let r := op db
  match r.err with
  | none => r
  | some e =>
    let ae := categorizeError e
    if ae.retryable = false then ⟨r.db, r.effs, some (.app ae)⟩
    else if h : maxRetries ≤ attempt then ⟨r.db, r.effs, some (.app (categorizeError e))⟩
    else
      let r2 := retryDetGo op maxRetries (attempt + 1) r.db
      ⟨r2.db, r.effs ++ r2.effs, r2.err⟩
termination_by maxRetries - attempt
decreasing_by omega

/-- Model of `ErrorHandler.withRetry` applied to a store-transforming operation. -/
def withRetryDet (op : DBState → HRes) (maxRetries : Nat) (db : DBState) : HRes :=
  retryDetGo op maxRetries 1 db

/-! ## The webhook POST pipeline -/

/-- The HTTP-visible outcome of one delivery. -/
inductive PostOutcome where
  | alreadyProcessed
  | ok
  | failed (e : AppError) (status : Nat)
deriving DecidableEq, Repr

/-- The `switch (event.type)` dispatch of the webhook `POST` handler:
each recognised event type runs its handler under
`ErrorHandler.withRetry(…, 3, …)`; an unhandled type is logged and
skipped. -/
def dispatchHandler (env : Env) (event : StripeEvent) (db2 : DBState) : HRes :=
  match event.type with
  | "checkout.session.completed" => withRetryDet (handleCheckoutCompletedOp env event) 3 db2
  | "customer.subscription.deleted" => withRetryDet (handleSubscriptionDeletedOp event) 3 db2
  | "customer.subscription.updated" => withRetryDet (handleSubscriptionUpdatedOp event) 3 db2
  | _ => ⟨db2, [], none⟩

/-- The tail of the `POST` handler: on handler success advance the
ledger row to success; on handler failure — via
`ErrorHandler.handleWebhookError` — classify, annotate the row with
`category: message` and set it to error, then surface the failure
(validation errors as 400, others as 500). -/
def finishEvent (key : String) (pre : List Effect) (hres : HRes) :
    PostOutcome × DBState × List Effect :=
  match hres.err with
  | none =>
    (.ok, updateWebhookStatus key "success" none hres.db,
     pre ++ hres.effs ++ [.dbUpdateWebhook key "success" none])
  | some e =>
    let ae := categorizeError e
    let msg := ae.category.str ++ ": " ++ ae.message
    (.failed ae (if ae.category = .validation then 400 else 500),
     updateWebhookStatus key "error" (some msg) hres.db,
     pre ++ hres.effs ++ [.dbUpdateWebhook key "error" (some msg)])

/-- The webhook `POST` pipeline from successful signature verification
on: compute the idempotency key, short-circuit when the key already has
a ledger row, otherwise insert the row (its `withRetry` wrapper is the
identity here since the pure insert cannot fail), advance the row to
processing, dispatch on the event type, and finish. -/
def processEvent (env : Env) (event : StripeEvent) (db : DBState) :
    PostOutcome × DBState × List Effect :=
  let key := "stripe_" ++ event.id
  if webhookExists key db then (.alreadyProcessed, db, [])
  else
    let db2 := updateWebhookStatus key "processing" none (logWebhook key "stripe" event.type db)
    finishEvent key [.dbInsertWebhook key "received", .dbUpdateWebhook key "processing" none]
      (dispatchHandler env event db2)

/-! ## Concrete fixtures used by counterexamples and witnesses -/

/-- A stored subscription linked to Stripe subscription `sub_1`. -/
def sub1 : Subscription := ⟨1, 1, "enh_1", some "sub_1", "plan_basic", .active⟩

/-- A store holding `sub1`, no customers, no plan mappings, empty ledger. -/
def db0 : DBState := ⟨[], [sub1], [], []⟩

/-- An environment in which Stripe reports `canceled` for every
subscription and Enhance reports `active`. -/
def env0 : Env :=
  ⟨fun _ => "canceled", fun _ => "active", fun _ => "a@b.example", fun _ => "",
   "enh_cus_new", "enh_sub_new"⟩

/-- A `checkout.session.completed` event whose session object carries
its own status string `"complete"`. -/
def evCheckout : StripeEvent :=
  ⟨"evt_cs_1", "checkout.session.completed",
   { id := "cs_1", customer := "cus_1", subscription := "sub_1",
     status := "complete", line_items_price := "price_basic",
     customer_details := some ⟨"a@b.example", "Alice"⟩ }⟩

/-- A `customer.subscription.deleted` event for `sub_1`. -/
def evDeleted : StripeEvent :=
  ⟨"evt_del_1", "customer.subscription.deleted",
   { id := "sub_1", customer := "cus_1", status := "canceled" }⟩

/-- A `customer.subscription.updated` event carrying status `active`
for `sub_1`. -/
def evUpdatedActive : StripeEvent :=
  ⟨"evt_upd_1", "customer.subscription.updated",
   { id := "sub_1", customer := "cus_1", status := "active" }⟩

/-! ## C6 — error classifier -/

/-- C6: every `AppError` passes through classification unchanged, and a
plain error is classified purely by keywords of its lower-cased message,
in source precedence order: fetch/network/timeout → ExternalApi
retryable; else database/sql/connection → Database retryable; else
unauthorized/forbidden/token → Authentication not retryable; else
validation/invalid/required → Validation not retryable; else System not
retryable. -/
theorem claim_C6 :
    (∀ e : AppError, categorizeError (.app e) = e) ∧
    (∀ msg : String,
      let m := strLower msg
      let kwE := containsSub m "fetch" || containsSub m "network" || containsSub m "timeout"
      let kwD := containsSub m "database" || containsSub m "sql" || containsSub m "connection"
      let kwA := containsSub m "unauthorized" || containsSub m "forbidden" || containsSub m "token"
      let kwV := containsSub m "validation" || containsSub m "invalid" || containsSub m "required"
      (kwE = true → categorizeError (.plain msg) = ⟨msg, .externalApi, .high, true⟩) ∧
      (kwE = false → kwD = true →
        categorizeError (.plain msg) = ⟨msg, .database, .high, true⟩) ∧
      (kwE = false → kwD = false → kwA = true →
        categorizeError (.plain msg) = ⟨msg, .authentication, .medium, false⟩) ∧
      (kwE = false → kwD = false → kwA = false → kwV = true →
        categorizeError (.plain msg) = ⟨msg, .validation, .low, false⟩) ∧
      (kwE = false → kwD = false → kwA = false → kwV = false →
        categorizeError (.plain msg) = ⟨msg, .system, .medium, false⟩)) := by
  refine ⟨fun e => rfl, fun msg => ?_⟩
  refine ⟨?_, ?_, ?_, ?_, ?_⟩ <;> intros <;> simp_all [categorizeError]

/-- Witness for C6 at a concrete input: a plain error mentioning a
connection failure (no external-api keyword) is classified Database,
retryable. -/
theorem claim_C6_witness :
    categorizeError (.plain "Connection refused by host") =
      ⟨"Connection refused by host", .database, .high, true⟩ :=
  (claim_C6.2 "Connection refused by host").2.1 (by decide) (by decide)

/-! ## C9 — extractor's status projection -/

/-- Counterexample to C9 as stated: for the supported event type
`checkout.session.completed`, the projection's status is the hardcoded
string `"active"`, not the status value carried by the event object
(here `"complete"`). -/
theorem claim_C9_counterexample :
    ¬ ((extractSubscriptionData evCheckout).map (fun sd => sd.status) =
        some evCheckout.obj.status) := by
  decide

/-- C9 (amended): for the subscription lifecycle event types the
projection's status equals the status carried by the event object; for
`checkout.session.completed` it is the constant `"active"` regardless
of the payload's status field. -/
theorem claim_C9 :
    ∀ (e : StripeEvent) (sd : SubscriptionData), extractSubscriptionData e = some sd →
      (e.type = "checkout.session.completed" → sd.status = "active") ∧
      (e.type ≠ "checkout.session.completed" → sd.status = e.obj.status) := by
  intro e sd h
  unfold extractSubscriptionData at h
  split at h <;> simp_all <;> rw [← h]

/-- Witness for C9 at concrete inputs: the checkout fixture projects
status `"active"`; the deletion fixture projects the payload status. -/
theorem claim_C9_witness :
    ∃ sd sd' : SubscriptionData,
      extractSubscriptionData evCheckout = some sd ∧ sd.status = "active" ∧
      extractSubscriptionData evDeleted = some sd' ∧ sd'.status = evDeleted.obj.status :=
  ⟨⟨"sub_1", "cus_1", "price_basic", "active"⟩, ⟨"sub_1", "cus_1", "", "canceled"⟩,
   by decide,
   (claim_C9 evCheckout ⟨"sub_1", "cus_1", "price_basic", "active"⟩ (by decide)).1 (by decide),
   by decide,
   (claim_C9 evDeleted ⟨"sub_1", "cus_1", "", "canceled"⟩ (by decide)).2 (by decide)⟩

/-! ## Behavior lemmas for the two reconciliation entry points -/

/-- Inversion of the spec table. -/
lemma specTargetStatus_cases (s : String) (t : InternalStatus)
    (h : specTargetStatus s = some t) :
    (s = "active" ∧ t = .active) ∨
    ((s = "past_due" ∨ s = "unpaid") ∧ t = .suspended) ∨
    ((s = "canceled" ∨ s = "incomplete_expired") ∧ t = .canceled) := by
  unfold specTargetStatus at h
  split_ifs at h <;> simp_all

/-- The bulk-sync path on a Stripe status the table recognises:
reads both systems and converges toward exactly the table's target. -/
lemma sync_known (env : Env) (sid : String) (db : DBState) (dbSub : Subscription)
    (t : InternalStatus)
    (hfind : findSubscriptionByStripeId sid db = some dbSub)
    (ht : specTargetStatus (env.stripeStatus sid) = some t) :
    syncSingleSubscription env sid db =
      ⟨(syncConverge dbSub (env.enhanceStatus dbSub.enhance_subscription_id) t db).1,
       [.stripeGetSubscription sid, .enhGetSubscription dbSub.enhance_subscription_id] ++
         (syncConverge dbSub (env.enhanceStatus dbSub.enhance_subscription_id) t db).2,
       none⟩ := by
  unfold syncSingleSubscription
  rw [hfind]
  rcases specTargetStatus_cases _ _ ht with ⟨hs, rfl⟩ | ⟨hs | hs, rfl⟩ | ⟨hs | hs, rfl⟩ <;>
    rw [hs] <;> simp

/-- The bulk-sync path on a Stripe status outside the table: the reads
happen, then the operation returns with no provisioning action and no
store write. -/
lemma sync_unknown (env : Env) (sid : String) (db : DBState) (dbSub : Subscription)
    (hfind : findSubscriptionByStripeId sid db = some dbSub)
    (ht : specTargetStatus (env.stripeStatus sid) = none) :
    syncSingleSubscription env sid db =
      ⟨db, [.stripeGetSubscription sid, .enhGetSubscription dbSub.enhance_subscription_id],
       none⟩ := by
  unfold syncSingleSubscription
  simp only [hfind]
  split <;> simp_all [specTargetStatus]

/-- The event-driven update handler on a status the table recognises:
the Enhance action for the target is invoked unconditionally and the
internal status is written unconditionally. -/
lemma updatedOp_known (event : StripeEvent) (db : DBState) (sd : SubscriptionData)
    (sub : Subscription) (t : InternalStatus)
    (hx : extractSubscriptionData event = some sd)
    (hfind : findSubscriptionByStripeId sd.stripeSubscriptionId db = some sub)
    (ht : specTargetStatus sd.status = some t) :
    handleSubscriptionUpdatedOp event db =
      ⟨updateSubscriptionStatus sub.id t db,
       [if t = .active then .enhReactivate sub.enhance_subscription_id
        else .enhSuspend sub.enhance_subscription_id], none⟩ := by
  unfold handleSubscriptionUpdatedOp
  simp only [hx, hfind]
  rcases specTargetStatus_cases _ _ ht with ⟨hs, rfl⟩ | ⟨hs | hs, rfl⟩ | ⟨hs | hs, rfl⟩ <;>
    rw [hs] <;> simp

/-- The event-driven update handler on a status outside the table:
no provisioning action, no store write, normal return. -/
lemma updatedOp_unknown (event : StripeEvent) (db : DBState) (sd : SubscriptionData)
    (sub : Subscription)
    (hx : extractSubscriptionData event = some sd)
    (hfind : findSubscriptionByStripeId sd.stripeSubscriptionId db = some sub)
    (ht : specTargetStatus sd.status = none) :
    handleSubscriptionUpdatedOp event db = ⟨db, [], none⟩ := by
  unfold handleSubscriptionUpdatedOp
  simp only [hx, hfind]
  split <;> simp_all [specTargetStatus]

/-- The event-driven update handler when no internal subscription
matches: normal return, nothing done. -/
lemma updatedOp_nosub (event : StripeEvent) (db : DBState) (sd : SubscriptionData)
    (hx : extractSubscriptionData event = some sd)
    (hfind : findSubscriptionByStripeId sd.stripeSubscriptionId db = none) :
    handleSubscriptionUpdatedOp event db = ⟨db, [], none⟩ := by
  unfold handleSubscriptionUpdatedOp
  simp only [hx, hfind]

/-- The event-driven deletion handler on a known subscription:
unconditional Enhance suspend (not a hard cancel), internal status set
to canceled. -/
lemma deletedOp_found (event : StripeEvent) (db : DBState) (sd : SubscriptionData)
    (sub : Subscription)
    (hx : extractSubscriptionData event = some sd)
    (hfind : findSubscriptionByStripeId sd.stripeSubscriptionId db = some sub) :
    handleSubscriptionDeletedOp event db =
      ⟨updateSubscriptionStatus sub.id .canceled db,
       [.enhSuspend sub.enhance_subscription_id], none⟩ := by
  unfold handleSubscriptionDeletedOp
  simp only [hx, hfind]

/-! ## C1 — the status-mapping table -/

/-- C1: the spec's table maps active → active; past_due, unpaid →
suspended; canceled, incomplete_expired → canceled and nothing else;
both entry points follow it: the bulk-sync path converges toward exactly
the table's target, the event-driven update handler writes exactly the
table's target; and on any status string outside the table both
operations return without error, without any provisioning action, and
without writing the internal subscription status. -/
theorem claim_C1 :
    (specTargetStatus "active" = some .active ∧
     specTargetStatus "past_due" = some .suspended ∧
     specTargetStatus "unpaid" = some .suspended ∧
     specTargetStatus "canceled" = some .canceled ∧
     specTargetStatus "incomplete_expired" = some .canceled ∧
     ∀ s : String, s ≠ "active" → s ≠ "past_due" → s ≠ "unpaid" → s ≠ "canceled" →
       s ≠ "incomplete_expired" → specTargetStatus s = none) ∧
    (∀ (env : Env) (sid : String) (db : DBState) (dbSub : Subscription) (t : InternalStatus),
      findSubscriptionByStripeId sid db = some dbSub →
      specTargetStatus (env.stripeStatus sid) = some t →
      syncSingleSubscription env sid db =
        ⟨(syncConverge dbSub (env.enhanceStatus dbSub.enhance_subscription_id) t db).1,
         [.stripeGetSubscription sid, .enhGetSubscription dbSub.enhance_subscription_id] ++
           (syncConverge dbSub (env.enhanceStatus dbSub.enhance_subscription_id) t db).2,
         none⟩) ∧
    (∀ (event : StripeEvent) (db : DBState) (sd : SubscriptionData) (sub : Subscription)
       (t : InternalStatus),
      extractSubscriptionData event = some sd →
      findSubscriptionByStripeId sd.stripeSubscriptionId db = some sub →
      specTargetStatus sd.status = some t →
      (handleSubscriptionUpdatedOp event db).db = updateSubscriptionStatus sub.id t db ∧
      (handleSubscriptionUpdatedOp event db).err = none) ∧
    (∀ (env : Env) (sid : String) (db : DBState) (dbSub : Subscription),
      findSubscriptionByStripeId sid db = some dbSub →
      specTargetStatus (env.stripeStatus sid) = none →
      syncSingleSubscription env sid db =
        ⟨db, [.stripeGetSubscription sid, .enhGetSubscription dbSub.enhance_subscription_id],
         none⟩) ∧
    (∀ (event : StripeEvent) (db : DBState) (sd : SubscriptionData) (sub : Subscription),
      extractSubscriptionData event = some sd →
      findSubscriptionByStripeId sd.stripeSubscriptionId db = some sub →
      specTargetStatus sd.status = none →
      handleSubscriptionUpdatedOp event db = ⟨db, [], none⟩) := by
  refine ⟨⟨rfl, rfl, rfl, rfl, rfl, ?_⟩, ?_, ?_, ?_, ?_⟩
  · intro s h1 h2 h3 h4 h5
    unfold specTargetStatus
    split_ifs with a b c <;> tauto
  · exact fun env sid db dbSub t hf ht => sync_known env sid db dbSub t hf ht
  · intro event db sd sub t hx hf ht
    rw [updatedOp_known event db sd sub t hx hf ht]
    exact ⟨rfl, rfl⟩
  · exact fun env sid db dbSub hf ht => sync_unknown env sid db dbSub hf ht
  · exact fun event db sd sub hx hf ht => updatedOp_unknown event db sd sub hx hf ht

/-- Witness for C1 at a concrete input: in `env0` Stripe reports
`canceled` for `sub_1`, so the bulk-sync path converges `db0` toward
target canceled. -/
theorem claim_C1_witness :
    syncSingleSubscription env0 "sub_1" db0 =
      ⟨(syncConverge sub1 (env0.enhanceStatus "enh_1") .canceled db0).1,
       [.stripeGetSubscription "sub_1", .enhGetSubscription "enh_1"] ++
         (syncConverge sub1 (env0.enhanceStatus "enh_1") .canceled db0).2,
       none⟩ :=
  claim_C1.2.1 env0 "sub_1" db0 sub1 .canceled (by decide) (by decide)

/-! ## C2 — cancel vs suspend on the two cancellation paths -/

/-- Counterexample to C2 as stated: at this concrete input the target
is canceled and the bulk-sync path issues the hard-cancel Enhance call
(DELETE), not a suspend, while the subscription-deleted handler issues a
suspend, not a hard cancel — exactly the opposite of the claim. -/
theorem claim_C2_counterexample :
    (syncSingleSubscription env0 "sub_1" db0).effs =
      [.stripeGetSubscription "sub_1", .enhGetSubscription "enh_1", .enhCancel "enh_1"] ∧
    (handleSubscriptionDeletedOp evDeleted db0).effs = [.enhSuspend "enh_1"] ∧
    ¬ ((syncSingleSubscription env0 "sub_1" db0).effs.contains (.enhSuspend "enh_1") = true) ∧
    ¬ ((handleSubscriptionDeletedOp evDeleted db0).effs.contains (.enhCancel "enh_1") = true) := by
  decide

/-- C2 (amended): when the target status is canceled the bulk-sync path
invokes the provisioning hard-cancel action (it issues no suspend),
whereas the event-driven cancellation (subscription-deleted) path
instead issues a provisioning suspend (it issues no hard cancel). -/
theorem claim_C2 :
    (∀ (env : Env) (sid : String) (db : DBState) (dbSub : Subscription),
      findSubscriptionByStripeId sid db = some dbSub →
      specTargetStatus (env.stripeStatus sid) = some .canceled →
      env.enhanceStatus dbSub.enhance_subscription_id ≠ "canceled" →
      (syncSingleSubscription env sid db).effs =
        [.stripeGetSubscription sid, .enhGetSubscription dbSub.enhance_subscription_id,
         .enhCancel dbSub.enhance_subscription_id]) ∧
    (∀ (event : StripeEvent) (db : DBState) (sd : SubscriptionData) (sub : Subscription),
      extractSubscriptionData event = some sd →
      findSubscriptionByStripeId sd.stripeSubscriptionId db = some sub →
      handleSubscriptionDeletedOp event db =
        ⟨updateSubscriptionStatus sub.id .canceled db,
         [.enhSuspend sub.enhance_subscription_id], none⟩) := by
  constructor
  · intro env sid db dbSub hf ht hne
    rw [sync_known env sid db dbSub .canceled hf ht]
    simp [syncConverge, InternalStatus.str, hne]
  · exact fun event db sd sub hx hf => deletedOp_found event db sd sub hx hf

/-- Witness for C2 at concrete inputs: both cancellation paths run on
`db0`. -/
theorem claim_C2_witness :
    (syncSingleSubscription env0 "sub_1" db0).effs =
      [.stripeGetSubscription "sub_1", .enhGetSubscription "enh_1", .enhCancel "enh_1"] ∧
    handleSubscriptionDeletedOp evDeleted db0 =
      ⟨updateSubscriptionStatus 1 .canceled db0, [.enhSuspend "enh_1"], none⟩ :=
  ⟨claim_C2.1 env0 "sub_1" db0 sub1 (by decide) (by decide) (by decide),
   claim_C2.2 evDeleted db0 ⟨"sub_1", "cus_1", "", "canceled"⟩ sub1 (by decide) (by decide)⟩

/-! ## C4 — event-driven update: conditional action? -/

/-- Counterexample to C4 as stated: in `env0` the provisioning system
already reports `active` — equal to the target — yet the update handler
still invokes the reactivate provisioning action (the handler never
consults the provisioning system's current status at all). -/
theorem claim_C4_counterexample :
    env0.enhanceStatus "enh_1" = InternalStatus.active.str ∧
    (handleSubscriptionUpdatedOp evUpdatedActive db0).effs = [.enhReactivate "enh_1"] ∧
    ¬ ((handleSubscriptionUpdatedOp evUpdatedActive db0).effs.all
        (fun ef => !ef.isProvisioningAction) = true) := by
  decide

/-- C4 (amended): for every subscription-updated event whose status
maps to a target in the table, the handler invokes the corresponding
provisioning action (reactivate for active, suspend otherwise)
unconditionally — regardless of the provisioning system's current
status, which it never reads — and always persists the internal
Subscription status to the target. -/
theorem claim_C4 :
    ∀ (event : StripeEvent) (db : DBState) (sd : SubscriptionData) (sub : Subscription)
      (t : InternalStatus),
      extractSubscriptionData event = some sd →
      findSubscriptionByStripeId sd.stripeSubscriptionId db = some sub →
      specTargetStatus sd.status = some t →
      handleSubscriptionUpdatedOp event db =
        ⟨updateSubscriptionStatus sub.id t db,
         [if t = .active then .enhReactivate sub.enhance_subscription_id
          else .enhSuspend sub.enhance_subscription_id], none⟩ :=
  fun event db sd sub t hx hf ht => updatedOp_known event db sd sub t hx hf ht

/-- Witness for C4 at a concrete input: the `active` update event on
`db0` reactivates and persists `active`. -/
theorem claim_C4_witness :
    handleSubscriptionUpdatedOp evUpdatedActive db0 =
      ⟨updateSubscriptionStatus 1 .active db0, [.enhReactivate "enh_1"], none⟩ :=
  claim_C4 evUpdatedActive db0 ⟨"sub_1", "cus_1", "", "active"⟩ sub1 .active
    (by decide) (by decide) (by decide)

/-! ## C3 — retry executor -/

/-- Behavior of the retry loop when attempts `1..k` fail with retryable
errors and attempt `k+1` succeeds, entered at any `attempt ≤ k+1`. -/
lemma retryGo_succeeds {α : Type} (op : Nat → OpResult α) (jit : Nat → ℚ) (b : ℚ)
    (maxRetries k : Nat) (v : α) (ef : Nat → JsError)
    (hfail : ∀ i, 1 ≤ i → i ≤ k → op i = .fail (ef i))
    (hret : ∀ i, 1 ≤ i → i ≤ k → (categorizeError (ef i)).retryable = true)
    (hok : op (k + 1) = .ok v) (hk : k < maxRetries) :
    ∀ attempt, 1 ≤ attempt → attempt ≤ k + 1 →
      retryGo op jit b maxRetries attempt =
        ⟨.ok v, k + 2 - attempt,
         (List.range' attempt (k + 1 - attempt)).map (fun i => b * 2 ^ (i - 1) + jit i)⟩ := by
  have key : ∀ n attempt, 1 ≤ attempt → attempt ≤ k + 1 → k + 1 - attempt = n →
      retryGo op jit b maxRetries attempt =
        ⟨.ok v, k + 2 - attempt,
         (List.range' attempt (k + 1 - attempt)).map (fun i => b * 2 ^ (i - 1) + jit i)⟩ := by
    intro n
    induction n with
    | zero =>
      intro attempt h1 h2 hn
      have ha : attempt = k + 1 := by omega
      subst ha
      rw [retryGo]
      simp only [hok, hn, List.range'_zero, List.map_nil]
      have : k + 2 - (k + 1) = 1 := by omega
      rw [this]
    | succ n ih =>
      intro attempt h1 h2 hn
      have hak : attempt ≤ k := by omega
      rw [retryGo]
      simp only [hfail attempt h1 hak]
      rw [if_neg (by simp [hret attempt h1 hak])]
      rw [dif_neg (by omega)]
      rw [ih (attempt + 1) (by omega) (by omega) (by omega)]
      have h3 : k + 1 - attempt = (k + 1 - (attempt + 1)) + 1 := by omega
      rw [h3, List.range'_succ attempt (k + 1 - (attempt + 1)) 1]
      simp only [List.map_cons]
      have h4 : k + 2 - attempt = (k + 2 - (attempt + 1)) + 1 := by omega
      rw [h4]
  exact fun attempt h1 h2 => key (k + 1 - attempt) attempt h1 h2 rfl

/-- Behavior of the retry loop when every attempt `1..maxRetries` fails
with a retryable error, entered at any `attempt ≤ maxRetries`. -/
lemma retryGo_exhausts {α : Type} (op : Nat → OpResult α) (jit : Nat → ℚ) (b : ℚ)
    (maxRetries : Nat) (ef : Nat → JsError)
    (hfail : ∀ i, 1 ≤ i → i ≤ maxRetries → op i = .fail (ef i))
    (hret : ∀ i, 1 ≤ i → i ≤ maxRetries → (categorizeError (ef i)).retryable = true) :
    ∀ attempt, 1 ≤ attempt → attempt ≤ maxRetries →
      retryGo op jit b maxRetries attempt =
        ⟨.error (categorizeError (ef maxRetries)), maxRetries + 1 - attempt,
         (List.range' attempt (maxRetries - attempt)).map
           (fun i => b * 2 ^ (i - 1) + jit i)⟩ := by
  have key : ∀ n attempt, 1 ≤ attempt → attempt ≤ maxRetries → maxRetries - attempt = n →
      retryGo op jit b maxRetries attempt =
        ⟨.error (categorizeError (ef maxRetries)), maxRetries + 1 - attempt,
         (List.range' attempt (maxRetries - attempt)).map
           (fun i => b * 2 ^ (i - 1) + jit i)⟩ := by
    intro n
    induction n with
    | zero =>
      intro attempt h1 h2 hn
      have ha : attempt = maxRetries := by omega
      subst ha
      rw [retryGo]
      simp only [hfail attempt h1 h2]
      rw [if_neg (by simp [hret attempt h1 h2])]
      rw [dif_pos (le_refl attempt)]
      simp only [hn, List.range'_zero, List.map_nil]
      have : attempt + 1 - attempt = 1 := by omega
      rw [this]
    | succ n ih =>
      intro attempt h1 h2 hn
      have hlt : attempt < maxRetries := by omega
      rw [retryGo]
      simp only [hfail attempt h1 h2]
      rw [if_neg (by simp [hret attempt h1 h2])]
      rw [dif_neg (by omega)]
      rw [ih (attempt + 1) (by omega) (by omega) (by omega)]
      have h3 : maxRetries - attempt = (maxRetries - (attempt + 1)) + 1 := by omega
      rw [h3, List.range'_succ attempt (maxRetries - (attempt + 1)) 1]
      simp only [List.map_cons]
      have h4 : maxRetries + 1 - attempt = (maxRetries + 1 - (attempt + 1)) + 1 := by omega
      rw [h4]
  exact fun attempt h1 h2 => key (maxRetries - attempt) attempt h1 h2 rfl

/-- C3: for an operation that fails `k` times with retryable errors and
then succeeds: with `maxAttempts > k` the executor returns the success
value after exactly `k+1` invocations; with `1 ≤ maxAttempts ≤ k` it
fails with the classified last error after exactly `maxAttempts`
invocations; in both cases the delay between attempt `i` and `i+1` is
`baseDelay * 2^(i-1) + jitter(i)`, which lies between
`baseDelay * 2^(i-1)` and `baseDelay * 2^(i-1) + 1000`. -/
theorem claim_C3 {α : Type} (op : Nat → OpResult α) (ef : Nat → JsError)
    (k maxAttempts : Nat) (v : α) (baseDelay : ℚ) (jit : Nat → ℚ)
    (hfail : ∀ i, 1 ≤ i → i ≤ k → op i = .fail (ef i))
    (hret : ∀ i, 1 ≤ i → i ≤ k → (categorizeError (ef i)).retryable = true)
    (hok : ∀ i, k < i → op i = .ok v)
    (hmax : 1 ≤ maxAttempts) :
    (k < maxAttempts →
      withRetry op maxAttempts baseDelay jit =
        some ⟨.ok v, k + 1, (List.range' 1 k).map (fun i => baseDelay * 2 ^ (i - 1) + jit i)⟩) ∧
    (maxAttempts ≤ k →
      withRetry op maxAttempts baseDelay jit =
        some ⟨.error (categorizeError (ef maxAttempts)), maxAttempts,
              (List.range' 1 (maxAttempts - 1)).map
                (fun i => baseDelay * 2 ^ (i - 1) + jit i)⟩) ∧
    (0 ≤ baseDelay → (∀ j, 0 ≤ jit j ∧ jit j < 1000) →
      ∀ tr : RetryTrace α, withRetry op maxAttempts baseDelay jit = some tr →
      ∀ i d, 1 ≤ i → tr.delays[i - 1]? = some d →
        baseDelay * 2 ^ (i - 1) ≤ d ∧ d ≤ baseDelay * 2 ^ (i - 1) + 1000) := by
  have hwr : withRetry op maxAttempts baseDelay jit =
      some (retryGo op jit baseDelay maxAttempts 1) := by
    unfold withRetry
    rw [if_neg (by omega)]
  refine ⟨?_, ?_, ?_⟩
  · intro hk
    rw [hwr, retryGo_succeeds op jit baseDelay maxAttempts k v ef hfail hret (hok (k + 1) (by omega)) hk
        1 le_rfl (by omega)]
    simp
  · intro hk
    rw [hwr, retryGo_exhausts op jit baseDelay maxAttempts ef
        (fun i hi1 hi2 => hfail i hi1 (by omega))
        (fun i hi1 hi2 => hret i hi1 (by omega)) 1 le_rfl hmax]
    simp
  · intro hb hj tr htr i d hi hd
    have hdell : ∃ m, tr.delays =
        (List.range' 1 m).map (fun j => baseDelay * 2 ^ (j - 1) + jit j) := by
      by_cases hk : k < maxAttempts
      · refine ⟨k, ?_⟩
        rw [hwr, retryGo_succeeds op jit baseDelay maxAttempts k v ef hfail hret
            (hok (k + 1) (by omega)) hk 1 le_rfl (by omega)] at htr
        injection htr with htr'
        rw [← htr']
        simp
      · refine ⟨maxAttempts - 1, ?_⟩
        rw [hwr, retryGo_exhausts op jit baseDelay maxAttempts ef
            (fun j hj1 hj2 => hfail j hj1 (by omega))
            (fun j hj1 hj2 => hret j hj1 (by omega)) 1 le_rfl hmax] at htr
        injection htr with htr'
        rw [← htr']
    obtain ⟨m, hm⟩ := hdell
    rw [hm, List.getElem?_map] at hd
    have him : i - 1 < m := by
      by_contra hge
      rw [List.getElem?_eq_none (by rw [List.length_range']; omega)] at hd
      simp at hd
    rw [List.getElem?_range' 1 1 him] at hd
    simp only [Option.map_some'] at hd
    have h15 : 1 + 1 * (i - 1) = i := by omega
    rw [h15] at hd
    have hd' : baseDelay * 2 ^ (i - 1) + jit i = d := Option.some_injective _ hd
    rcases hj i with ⟨hj0, hj1⟩
    constructor
    · rw [← hd']; linarith
    · rw [← hd']; linarith

/-- Witness for C3 at a concrete input: an operation failing twice with
a retryable network error and then returning 42, run with 4 allowed
attempts, base delay 1000 and jitter 500, succeeds after 3 invocations
with delays 1500 and 2500. -/
theorem claim_C3_witness :
    withRetry (fun i => if i ≤ 2 then OpResult.fail (.plain "network down") else .ok (42 : Nat))
        4 1000 (fun _ => 500) =
      some ⟨.ok 42, 3, [1500, 2500]⟩ := by
  have h := (claim_C3
      (fun i => if i ≤ 2 then OpResult.fail (.plain "network down") else .ok (42 : Nat))
      (fun _ => .plain "network down") 2 4 42 1000 (fun _ => 500)
      (fun i _ h2 => by simp [h2])
      (fun _ _ _ =>
        (by decide : (categorizeError (JsError.plain "network down")).retryable = true))
      (fun i hi => by have hn : ¬ i ≤ 2 := by omega
                      simp [hn])
      (by norm_num)).1 (by norm_num)
  rw [h]
  norm_num [show List.range' 1 2 = [1, 2] from by decide]

/-! ## C8 — missing plan mapping -/

/-- The customer stage never touches the plan-mapping table. -/
lemma ensureCustomer_plan_mappings (env : Env) (cd : CustomerData) (db : DBState) :
    (ensureCustomer env cd db).2.1.plan_mappings = db.plan_mappings := by
  unfold ensureCustomer
  split <;> rfl

/-- Plan-mapping lookups see through the customer stage. -/
lemma findPlanMapping_ensureCustomer (p pid : String) (env : Env) (cd : CustomerData)
    (db : DBState) :
    findPlanMapping p pid (ensureCustomer env cd db).2.1 = findPlanMapping p pid db := by
  unfold findPlanMapping
  rw [ensureCustomer_plan_mappings]

/-- The checkout handler with no plan mapping for the purchased price
throws the pre-classified BusinessLogic `AppError`. -/
lemma checkoutOp_no_mapping (env : Env) (event : StripeEvent) (db : DBState)
    (cd : CustomerData) (sd : SubscriptionData)
    (hcd : extractCustomerData event = some cd)
    (hsd : extractSubscriptionData event = some sd)
    (hpm : findPlanMapping "stripe" sd.stripePriceId db = none) :
    (handleCheckoutCompletedOp env event db).err =
      some (.app ⟨"No plan mapping found for Stripe price: " ++ sd.stripePriceId,
                  .businessLogic, .high, false⟩) := by
  unfold handleCheckoutCompletedOp
  simp only [hcd, hsd, findPlanMapping_ensureCustomer, hpm]

/-- C8: with no mapping for (stripe, price id), the checkout-completion
handler fails with an error whose classification is BusinessLogic and
not retryable, while `SubscriptionManager.changePlan` throws a plain
`Error`; when the price id contributes no classifier keyword, that error
is classified System — not BusinessLogic — and not retryable. -/
theorem claim_C8 :
    (∀ (env : Env) (event : StripeEvent) (db : DBState) (cd : CustomerData)
       (sd : SubscriptionData),
      extractCustomerData event = some cd →
      extractSubscriptionData event = some sd →
      findPlanMapping "stripe" sd.stripePriceId db = none →
      ∃ e, (handleCheckoutCompletedOp env event db).err = some e ∧
        categorizeError e =
          ⟨"No plan mapping found for Stripe price: " ++ sd.stripePriceId,
           .businessLogic, .high, false⟩) ∧
    (∀ (sid pid : String) (db : DBState) (sub : Subscription),
      findSubscriptionByStripeId sid db = some sub →
      findPlanMapping "stripe" pid db = none →
      ∃ msg, (changePlan sid pid db).err = some (.plain msg) ∧
        msg = "No plan mapping found for Stripe price: " ++ pid ∧
        ((containsSub (strLower msg) "fetch" || containsSub (strLower msg) "network" ||
            containsSub (strLower msg) "timeout" ||
          containsSub (strLower msg) "database" || containsSub (strLower msg) "sql" ||
            containsSub (strLower msg) "connection" ||
          containsSub (strLower msg) "unauthorized" || containsSub (strLower msg) "forbidden" ||
            containsSub (strLower msg) "token" ||
          containsSub (strLower msg) "validation" || containsSub (strLower msg) "invalid" ||
            containsSub (strLower msg) "required") = false →
          categorizeError (.plain msg) = ⟨msg, .system, .medium, false⟩)) := by
  constructor
  · intro env event db cd sd hcd hsd hpm
    exact ⟨_, checkoutOp_no_mapping env event db cd sd hcd hsd hpm, rfl⟩
  · intro sid pid db sub hf hpm
    refine ⟨"No plan mapping found for Stripe price: " ++ pid, ?_, rfl, ?_⟩
    · unfold changePlan
      simp [hf, hpm]
    · intro hkw
      simp only [Bool.or_eq_false_iff] at hkw
      obtain ⟨⟨⟨⟨⟨⟨⟨⟨⟨⟨⟨k1, k2⟩, k3⟩, k4⟩, k5⟩, k6⟩, k7⟩, k8⟩, k9⟩, k10⟩, k11⟩, k12⟩ := hkw
      unfold categorizeError
      simp [k1, k2, k3, k4, k5, k6, k7, k8, k9, k10, k11, k12]

/-- Counterexample to C8 as stated: on `db0` (which has no plan
mappings) the plan-change operation's missing-mapping failure is a plain
error that the classifier assigns System — not BusinessLogic. -/
theorem claim_C8_counterexample :
    (changePlan "sub_1" "price_basic" db0).err =
      some (.plain "No plan mapping found for Stripe price: price_basic") ∧
    categorizeError (.plain "No plan mapping found for Stripe price: price_basic") =
      ⟨"No plan mapping found for Stripe price: price_basic", .system, .medium, false⟩ ∧
    ¬ ((categorizeError
          (.plain "No plan mapping found for Stripe price: price_basic")).category =
        ErrorCategory.businessLogic) := by
  refine ⟨?_, ?_, ?_⟩ <;> decide

/-- Witness for C8 at concrete inputs: a checkout event and a plan
change against `db0`, which has no plan mappings. -/
theorem claim_C8_witness :
    (∃ e, (handleCheckoutCompletedOp env0 evCheckout db0).err = some e ∧
      categorizeError e =
        ⟨"No plan mapping found for Stripe price: price_basic", .businessLogic, .high, false⟩) ∧
    (∃ msg, (changePlan "sub_1" "price_basic" db0).err = some (.plain msg) ∧
      msg = "No plan mapping found for Stripe price: price_basic" ∧
      categorizeError (.plain msg) = ⟨msg, .system, .medium, false⟩) := by
  constructor
  · exact claim_C8.1 env0 evCheckout db0 ⟨"cus_1", "a@b.example", "Alice"⟩
      ⟨"sub_1", "cus_1", "price_basic", "active"⟩ (by decide) (by decide) (by decide)
  · obtain ⟨msg, h1, h2, h3⟩ := claim_C8.2 "sub_1" "price_basic" db0 sub1
      (by decide) (by decide)
    exact ⟨msg, h1, h2, h3 (by rw [h2]; decide)⟩

/-! ## Ledger bookkeeping -/

/-- Number of ledger rows carrying a given idempotency key. -/
def ledgerRowsFor (key : String) (db : DBState) : Nat :=
  (db.webhook_logs.filter (fun w => w.idempotency_key == key)).length

/-- The sequence of (status, error message) ledger writes for a given
key appearing in an effect trace, in order. -/
def ledgerWritesFor (key : String) (effs : List Effect) : List (String × Option String) :=
  effs.filterMap fun ef =>
    match ef with
    | .dbInsertWebhook k st => if k = key then some (st, none) else none
    | .dbUpdateWebhook k st m => if k = key then some (st, m) else none
    | _ => none

/-- The `any` is invariant under a predicate-preserving map. -/
lemma any_map_eq {A : Type} (f : A → A) (p : A → Bool) (h : ∀ a, p (f a) = p a) :
    ∀ l : List A, (l.map f).any p = l.any p := by
  intro l
  induction l with
  | nil => rfl
  | cons a l ih => simp [h a, ih]

/-- The `filter` length is invariant under a predicate-preserving map. -/
lemma filter_length_map_eq {A : Type} (f : A → A) (p : A → Bool) (h : ∀ a, p (f a) = p a) :
    ∀ l : List A, ((l.map f).filter p).length = (l.filter p).length := by
  intro l
  induction l with
  | nil => rfl
  | cons a l ih =>
    simp only [List.map_cons, List.filter_cons, h a]
    by_cases hp : p a <;> simp [hp, ih]

/-- A status update rewrites rows in place, never their keys. -/
lemma webhookExists_update (key k st : String) (m : Option String) (db : DBState) :
    webhookExists key (updateWebhookStatus k st m db) = webhookExists key db := by
  unfold webhookExists updateWebhookStatus
  exact any_map_eq _ _
    (fun w => by by_cases h : w.idempotency_key == k <;> simp [h]) _

/-- A status update preserves the number of rows per key. -/
lemma ledgerRowsFor_update (key k st : String) (m : Option String) (db : DBState) :
    ledgerRowsFor key (updateWebhookStatus k st m db) = ledgerRowsFor key db := by
  unfold ledgerRowsFor updateWebhookStatus
  exact filter_length_map_eq _ _
    (fun w => by by_cases h : w.idempotency_key == k <;> simp [h]) _

/-- Inserting a row for a key makes the key present. -/
lemma webhookExists_logWebhook_self (key s t : String) (db : DBState) :
    webhookExists key (logWebhook key s t db) = true := by
  unfold webhookExists logWebhook
  simp

/-- Inserting a row for a key adds exactly one row for that key. -/
lemma ledgerRowsFor_logWebhook_self (key s t : String) (db : DBState) :
    ledgerRowsFor key (logWebhook key s t db) = ledgerRowsFor key db + 1 := by
  unfold ledgerRowsFor logWebhook
  simp [List.filter_append]

/-- An absent key has zero rows. -/
lemma ledgerRowsFor_zero (key : String) (db : DBState)
    (h : webhookExists key db = false) : ledgerRowsFor key db = 0 := by
  unfold webhookExists at h
  unfold ledgerRowsFor
  rw [List.any_eq_false] at h
  simp [List.filter_eq_nil_iff.mpr h]

/-- Traces containing no ledger writes contribute no ledger writes. -/
lemma ledgerWritesFor_of_no_ledger (key : String) (effs : List Effect)
    (h : effs.all (fun ef => !ef.isLedgerWrite) = true) :
    ledgerWritesFor key effs = [] := by
  induction effs with
  | nil => rfl
  | cons e rest ih =>
    simp only [List.all_cons, Bool.and_eq_true] at h
    obtain ⟨he, hrest⟩ := h
    unfold ledgerWritesFor
    cases e <;> simp_all [Effect.isLedgerWrite, ledgerWritesFor]

/-! ## Handler operations are well-behaved

Each handler preserves the ledger table, emits no ledger writes, and
fails only with a non-retryable pre-classified error (so its retry
wrapper runs it exactly once). -/

/-- The three conditions above, for a store-transforming operation. -/
def GoodOp (op : DBState → HRes) : Prop :=
  ∀ db, (op db).db.webhook_logs = db.webhook_logs ∧
    ((op db).effs.all (fun ef => !ef.isLedgerWrite)) = true ∧
    ((op db).err = none ∨
      ∃ e, (op db).err = some e ∧ (categorizeError e).retryable = false)

lemma goodOp_updated (event : StripeEvent) : GoodOp (handleSubscriptionUpdatedOp event) := by
  intro db
  unfold handleSubscriptionUpdatedOp
  split
  · exact ⟨rfl, rfl, Or.inr ⟨_, rfl, rfl⟩⟩
  · split
    · exact ⟨rfl, rfl, Or.inl rfl⟩
    · split <;> exact ⟨rfl, rfl, Or.inl rfl⟩

lemma goodOp_deleted (event : StripeEvent) : GoodOp (handleSubscriptionDeletedOp event) := by
  intro db
  unfold handleSubscriptionDeletedOp
  split
  · exact ⟨rfl, rfl, Or.inr ⟨_, rfl, rfl⟩⟩
  · split
    · exact ⟨rfl, rfl, Or.inl rfl⟩
    · exact ⟨rfl, rfl, Or.inl rfl⟩

/-- The customer stage never touches the ledger table. -/
lemma ensureCustomer_logs (env : Env) (cd : CustomerData) (db : DBState) :
    (ensureCustomer env cd db).2.1.webhook_logs = db.webhook_logs := by
  unfold ensureCustomer
  split <;> rfl

/-- The customer stage emits no ledger writes. -/
lemma ensureCustomer_no_ledger (env : Env) (cd : CustomerData) (db : DBState) :
    ((ensureCustomer env cd db).2.2.all (fun ef => !ef.isLedgerWrite)) = true := by
  unfold ensureCustomer
  split
  · rfl
  · by_cases h : cd.email = "" <;> simp [h, Effect.isLedgerWrite]

lemma goodOp_checkout (env : Env) (event : StripeEvent) :
    GoodOp (handleCheckoutCompletedOp env event) := by
  intro db
  unfold handleCheckoutCompletedOp
  split
  · dsimp only
    split
    · exact ⟨ensureCustomer_logs env _ db, ensureCustomer_no_ledger env _ db,
        Or.inr ⟨_, rfl, rfl⟩⟩
    · refine ⟨ensureCustomer_logs env _ db, ?_, Or.inl rfl⟩
      rw [List.all_append, ensureCustomer_no_ledger env _ db]
      rfl
  · exact ⟨rfl, rfl, Or.inr ⟨_, rfl, rfl⟩⟩

/-- A deterministic operation that succeeds at once is run once by the
retry loop. -/
lemma withRetryDet_ok (op : DBState → HRes) (mr : Nat) (db : DBState)
    (h : (op db).err = none) : withRetryDet op mr db = op db := by
  unfold withRetryDet
  rw [retryDetGo]
  simp [h]

/-- A deterministic operation that fails with a non-retryable error is
run once; the loop rethrows the classified error. -/
lemma withRetryDet_fail (op : DBState → HRes) (mr : Nat) (db : DBState) (e : JsError)
    (h : (op db).err = some e) (hr : (categorizeError e).retryable = false) :
    withRetryDet op mr db = ⟨(op db).db, (op db).effs, some (.app (categorizeError e))⟩ := by
  unfold withRetryDet
  rw [retryDetGo]
  simp [h, hr]

/-- The retry wrapper of a well-behaved operation preserves the ledger
table and emits no ledger writes. -/
lemma withRetryDet_good (op : DBState → HRes) (hg : GoodOp op) (mr : Nat) (db : DBState) :
    (withRetryDet op mr db).db.webhook_logs = db.webhook_logs ∧
    ((withRetryDet op mr db).effs.all (fun ef => !ef.isLedgerWrite)) = true := by
  obtain ⟨hlogs, heffs, herr⟩ := hg db
  rcases herr with h | ⟨e, h, hr⟩
  · rw [withRetryDet_ok op mr db h]
    exact ⟨hlogs, heffs⟩
  · rw [withRetryDet_fail op mr db e h hr]
    exact ⟨hlogs, heffs⟩

/-- The dispatch stage preserves the ledger table and emits no ledger
writes, whatever the event type. -/
lemma dispatchHandler_good (env : Env) (event : StripeEvent) (db2 : DBState) :
    (dispatchHandler env event db2).db.webhook_logs = db2.webhook_logs ∧
    ((dispatchHandler env event db2).effs.all (fun ef => !ef.isLedgerWrite)) = true := by
  unfold dispatchHandler
  split
  · exact withRetryDet_good _ (goodOp_checkout env event) 3 db2
  · exact withRetryDet_good _ (goodOp_deleted event) 3 db2
  · exact withRetryDet_good _ (goodOp_updated event) 3 db2
  · exact ⟨rfl, rfl⟩

/-! ## Pipeline-level lemmas -/

/-- A seen key short-circuits the pipeline. -/
lemma processEvent_seen (env : Env) (event : StripeEvent) (db : DBState)
    (h : webhookExists ("stripe_" ++ event.id) db = true) :
    processEvent env event db = (.alreadyProcessed, db, []) := by
  unfold processEvent
  simp [h]

/-- A fresh key runs the full pipeline. -/
lemma processEvent_fresh_eq (env : Env) (event : StripeEvent) (db : DBState)
    (h : webhookExists ("stripe_" ++ event.id) db = false) :
    processEvent env event db =
      finishEvent ("stripe_" ++ event.id)
        [.dbInsertWebhook ("stripe_" ++ event.id) "received",
         .dbUpdateWebhook ("stripe_" ++ event.id) "processing" none]
        (dispatchHandler env event
          (updateWebhookStatus ("stripe_" ++ event.id) "processing" none
            (logWebhook ("stripe_" ++ event.id) "stripe" event.type db))) := by
  unfold processEvent
  simp [h]

/-- The finish stage's store has the ledger of a single status update
applied to the handler result's ledger. -/
lemma finishEvent_rows (key : String) (pre : List Effect) (hres : HRes) (d : DBState)
    (hlogs : hres.db.webhook_logs = d.webhook_logs) :
    webhookExists key (finishEvent key pre hres).2.1 = webhookExists key d ∧
    ledgerRowsFor key (finishEvent key pre hres).2.1 = ledgerRowsFor key d := by
  unfold finishEvent
  rcases herr : hres.err with _ | e <;> simp only [herr] <;> constructor
  · rw [webhookExists_update]
    unfold webhookExists
    rw [hlogs]
  · rw [ledgerRowsFor_update]
    unfold ledgerRowsFor
    rw [hlogs]
  · rw [webhookExists_update]
    unfold webhookExists
    rw [hlogs]
  · rw [ledgerRowsFor_update]
    unfold ledgerRowsFor
    rw [hlogs]

/-! ## C5 — idempotent delivery -/

/-- C5: an inbound event whose idempotency key already has a ledger row
short-circuits with a success response, leaving the store untouched and
issuing no calls at all; consequently a second sequential delivery of
any event is a complete no-op and the ledger holds exactly one row for
the key. -/
theorem claim_C5 :
    (∀ (env : Env) (event : StripeEvent) (db : DBState),
      webhookExists ("stripe_" ++ event.id) db = true →
      processEvent env event db = (.alreadyProcessed, db, [])) ∧
    (∀ (env : Env) (event : StripeEvent) (db : DBState),
      webhookExists ("stripe_" ++ event.id) db = false →
      ledgerRowsFor ("stripe_" ++ event.id) (processEvent env event db).2.1 = 1 ∧
      processEvent env event (processEvent env event db).2.1 =
        (.alreadyProcessed, (processEvent env event db).2.1, [])) := by
  refine ⟨fun env event db h => processEvent_seen env event db h, ?_⟩
  intro env event db hfresh
  have hrun := processEvent_fresh_eq env event db hfresh
  have hdl := dispatchHandler_good env event
    (updateWebhookStatus ("stripe_" ++ event.id) "processing" none
      (logWebhook ("stripe_" ++ event.id) "stripe" event.type db))
  have hfin := finishEvent_rows ("stripe_" ++ event.id)
    [.dbInsertWebhook ("stripe_" ++ event.id) "received",
     .dbUpdateWebhook ("stripe_" ++ event.id) "processing" none]
    (dispatchHandler env event
      (updateWebhookStatus ("stripe_" ++ event.id) "processing" none
        (logWebhook ("stripe_" ++ event.id) "stripe" event.type db)))
    (updateWebhookStatus ("stripe_" ++ event.id) "processing" none
      (logWebhook ("stripe_" ++ event.id) "stripe" event.type db))
    hdl.1
  have hex : webhookExists ("stripe_" ++ event.id) (processEvent env event db).2.1 = true := by
    rw [hrun, hfin.1, webhookExists_update, webhookExists_logWebhook_self]
  have hrows : ledgerRowsFor ("stripe_" ++ event.id) (processEvent env event db).2.1 = 1 := by
    rw [hrun, hfin.2, ledgerRowsFor_update, ledgerRowsFor_logWebhook_self,
        ledgerRowsFor_zero _ _ hfresh]
  exact ⟨hrows, processEvent_seen env event _ hex⟩

/-- Witness for C5 at a concrete input: delivering the `active` update
event to the empty-ledger store `db0` and then redelivering it. -/
theorem claim_C5_witness :
    ledgerRowsFor ("stripe_" ++ evUpdatedActive.id)
      (processEvent env0 evUpdatedActive db0).2.1 = 1 ∧
    processEvent env0 evUpdatedActive (processEvent env0 evUpdatedActive db0).2.1 =
      (.alreadyProcessed, (processEvent env0 evUpdatedActive db0).2.1, []) :=
  claim_C5.2 env0 evUpdatedActive db0 (by decide)

/-! ## C7 — forward-only ledger lifecycle -/

/-- Position of a ledger status in the forward lifecycle
received → processing → {success | error}. -/
def statusRank (s : String) : Nat :=
  if s = "received" then 0 else if s = "processing" then 1 else 2

/-- Counterexample to C7 as stated: `updateWebhookStatus` performs an
unconditional write, so applied directly to an entry already in the
terminal state `success` it moves the entry backward to `processing` —
the operation itself does not preserve the forward-only lifecycle. -/
theorem claim_C7_counterexample :
    ((updateWebhookStatus "stripe_evt_1" "processing" none
        ⟨[], [], [], [⟨"stripe_evt_1", "stripe", "t", "success", none⟩]⟩).webhook_logs.map
      (fun w => w.status)) = ["processing"] ∧
    ¬ statusRank "success" ≤ statusRank "processing" := by
  decide

/-- C7 (amended): `updateWebhookStatus` itself is an unconditional
write, but the ledger-write sequences the webhook pipeline issues for a
key are forward-only: a seen key gets no write at all (terminal entries
are never touched again), and a fresh key gets exactly
received → processing → success, or received → processing → error with
an error-message annotation attached only to the error write. -/
theorem claim_C7 :
    ∀ (env : Env) (event : StripeEvent) (db : DBState),
      (webhookExists ("stripe_" ++ event.id) db = true →
        ledgerWritesFor ("stripe_" ++ event.id) (processEvent env event db).2.2 = []) ∧
      (webhookExists ("stripe_" ++ event.id) db = false →
        ledgerWritesFor ("stripe_" ++ event.id) (processEvent env event db).2.2 =
            [("received", none), ("processing", none), ("success", none)] ∨
        ∃ msg, ledgerWritesFor ("stripe_" ++ event.id) (processEvent env event db).2.2 =
            [("received", none), ("processing", none), ("error", some msg)]) ∧
      List.Chain' (fun a b => statusRank a.1 < statusRank b.1)
        (ledgerWritesFor ("stripe_" ++ event.id) (processEvent env event db).2.2) := by
  intro env event db
  by_cases h : webhookExists ("stripe_" ++ event.id) db = true
  · rw [processEvent_seen env event db h]
    exact ⟨fun _ => rfl, fun hc => absurd h (by simp [hc]), by simp [ledgerWritesFor]⟩
  · have hfresh : webhookExists ("stripe_" ++ event.id) db = false := by
      simpa using h
    have hrun := processEvent_fresh_eq env event db hfresh
    have hdl := dispatchHandler_good env event
      (updateWebhookStatus ("stripe_" ++ event.id) "processing" none
        (logWebhook ("stripe_" ++ event.id) "stripe" event.type db))
    have hmid := ledgerWritesFor_of_no_ledger ("stripe_" ++ event.id) _ hdl.2
    have hwr : ledgerWritesFor ("stripe_" ++ event.id) (processEvent env event db).2.2 =
        [("received", none), ("processing", none), ("success", none)] ∨
        ∃ msg, ledgerWritesFor ("stripe_" ++ event.id) (processEvent env event db).2.2 =
          [("received", none), ("processing", none), ("error", some msg)] := by
      rw [hrun]
      unfold finishEvent
      rcases herr : (dispatchHandler env event
        (updateWebhookStatus ("stripe_" ++ event.id) "processing" none
          (logWebhook ("stripe_" ++ event.id) "stripe" event.type db))).err with _ | e
      · left
        simp only [herr]
        unfold ledgerWritesFor at hmid ⊢
        simp [List.filterMap_append, hmid]
      · right
        refine ⟨(categorizeError e).category.str ++ ": " ++ (categorizeError e).message, ?_⟩
        simp only [herr]
        unfold ledgerWritesFor at hmid ⊢
        simp [List.filterMap_append, hmid]
    refine ⟨fun hc => absurd hc (by simp [hfresh]), fun _ => hwr, ?_⟩
    rcases hwr with hw | ⟨msg, hw⟩ <;> rw [hw] <;> simp [statusRank]

/-- Witness for C7 at a concrete input: the ledger-write sequence of
the `active` update event delivered to the empty-ledger store `db0`. -/
theorem claim_C7_witness :
    ledgerWritesFor ("stripe_" ++ evUpdatedActive.id)
        (processEvent env0 evUpdatedActive db0).2.2 =
      [("received", none), ("processing", none), ("success", none)] ∨
    ∃ msg, ledgerWritesFor ("stripe_" ++ evUpdatedActive.id)
        (processEvent env0 evUpdatedActive db0).2.2 =
      [("received", none), ("processing", none), ("error", some msg)] :=
  (claim_C7 env0 evUpdatedActive db0).2.1 (by decide)

/-! ## C10 — update event for an unknown subscription -/

/-- C10: a subscription-updated event whose external subscription id
matches no internal record is processed without error: its handler
returns normally with no provisioning call, the only store change is the
ledger row advancing received → processing → success (a skip, not a
failure), and the subscription and customer tables are untouched. -/
theorem claim_C10 :
    ∀ (env : Env) (event : StripeEvent) (db : DBState),
      event.type = "customer.subscription.updated" →
      webhookExists ("stripe_" ++ event.id) db = false →
      findSubscriptionByStripeId event.obj.id db = none →
      processEvent env event db =
        (.ok,
         updateWebhookStatus ("stripe_" ++ event.id) "success" none
           (updateWebhookStatus ("stripe_" ++ event.id) "processing" none
             (logWebhook ("stripe_" ++ event.id) "stripe" event.type db)),
         [.dbInsertWebhook ("stripe_" ++ event.id) "received",
          .dbUpdateWebhook ("stripe_" ++ event.id) "processing" none,
          .dbUpdateWebhook ("stripe_" ++ event.id) "success" none]) ∧
      (processEvent env event db).2.1.subscriptions = db.subscriptions ∧
      (processEvent env event db).2.1.customers = db.customers := by
  intro env event db htype hfresh hfind
  have hx : extractSubscriptionData event =
      some ⟨event.obj.id, event.obj.customer, event.obj.items_price, event.obj.status⟩ := by
    unfold extractSubscriptionData
    rw [htype]
    simp
  have hdisp : ∀ d : DBState, d.subscriptions = db.subscriptions →
      dispatchHandler env event d = ⟨d, [], none⟩ := by
    intro d hd
    have hfind2 : findSubscriptionByStripeId event.obj.id d = none := by
      unfold findSubscriptionByStripeId at hfind ⊢
      rw [hd]
      exact hfind
    have hopd := updatedOp_nosub event d _ hx hfind2
    unfold dispatchHandler
    simp only [htype]
    rw [withRetryDet_ok _ 3 _ (by rw [hopd])]
    exact hopd
  have hpe : processEvent env event db =
      (.ok,
       updateWebhookStatus ("stripe_" ++ event.id) "success" none
         (updateWebhookStatus ("stripe_" ++ event.id) "processing" none
           (logWebhook ("stripe_" ++ event.id) "stripe" event.type db)),
       [.dbInsertWebhook ("stripe_" ++ event.id) "received",
        .dbUpdateWebhook ("stripe_" ++ event.id) "processing" none,
        .dbUpdateWebhook ("stripe_" ++ event.id) "success" none]) := by
    rw [processEvent_fresh_eq env event db hfresh,
        hdisp (updateWebhookStatus ("stripe_" ++ event.id) "processing" none
          (logWebhook ("stripe_" ++ event.id) "stripe" event.type db)) rfl]
    rfl
  exact ⟨hpe, by rw [hpe]; rfl, by rw [hpe]; rfl⟩

/-- An update event for an external subscription id unknown to `db0`. -/
def evUpdatedUnknown : StripeEvent :=
  ⟨"evt_upd_2", "customer.subscription.updated",
   { id := "sub_unknown", customer := "cus_1", status := "active" }⟩

/-- Witness for C10 at a concrete input: the unknown-subscription
update event delivered to `db0`. -/
theorem claim_C10_witness :
    processEvent env0 evUpdatedUnknown db0 =
      (.ok,
       updateWebhookStatus "stripe_evt_upd_2" "success" none
         (updateWebhookStatus "stripe_evt_upd_2" "processing" none
           (logWebhook "stripe_evt_upd_2" "stripe" "customer.subscription.updated" db0)),
       [.dbInsertWebhook "stripe_evt_upd_2" "received",
        .dbUpdateWebhook "stripe_evt_upd_2" "processing" none,
        .dbUpdateWebhook "stripe_evt_upd_2" "success" none]) ∧
    (processEvent env0 evUpdatedUnknown db0).2.1.subscriptions = db0.subscriptions ∧
    (processEvent env0 evUpdatedUnknown db0).2.1.customers = db0.customers :=
  claim_C10 env0 evUpdatedUnknown db0 rfl (by decide) (by decide)

end StripeEnhance
